import Mathlib

/-!  Shallow embedding of `src/mediasoup/ortc.go` (package mediasoup), the RTP
capability-negotiation engine: router capability building, producer mapping,
consumable parameter derivation, consumption feasibility, consumer reduction
and pipe-consumer derivation.

Go slices are modelled as Lean lists (a nil slice and an empty slice are
observationally identical in the Go code except for one `== nil` check that
only replaces nil by an empty slice, a no-op here).  Go pointers that may be
nil (`*RtpCodecParameter`, the `Rtx` field) are modelled as `Option`.
Functions with Go named return values `(x, err)` are modelled as returning
`X × Option OrtcError`, because the Go code can (and in one place does)
return a partially built value together with an error.  Go runtime panics
(nil-pointer dereference, index out of range) are modelled by the
`OrtcError.runtimePanic` constructor.  -/

/-- Modelled from the spec (§3, §6): the type declarations of the repository
are outside `src/`; the fields below are exactly those read or written by
`src/mediasoup/ortc.go`.  RTCP feedback entry: a (type, parameter) pair. -/
structure RtcpFeedback where
  type : String := ""
  parameter : String := ""
deriving DecidableEq

/-- Modelled from the spec (§3, §6): H.264-specific codec parameters, the
value handed to the external profile-level-id negotiation function.  In Go
this struct is embedded in `RtpCodecParameter`, so `aParameters.PacketizationMode`
and `aParameters.RtpH264Parameter.PacketizationMode` denote the same field. -/
structure RtpH264Parameter where
  packetizationMode : Int := 0
  profileLevelId : String := ""
deriving DecidableEq

/-- Modelled from the spec (§3): codec parameters (`*RtpCodecParameter` in Go,
nil modelled as `Option.none` at each use site).  Only the fields read by
ortc.go are modelled: `Apt` and the embedded `RtpH264Parameter`. -/
structure RtpCodecParameter where
  apt : Int := 0
  rtpH264Parameter : RtpH264Parameter := {}
deriving DecidableEq

/-- Modelled from the spec (§3): codec description.  The same Go struct is
used both for capability codecs (with `PreferredPayloadType`) and for the
concrete codecs of `RtpParameters` (with `PayloadType`). -/
structure RtpCodecCapability where
  kind : String := ""
  mimeType : String := ""
  preferredPayloadType : Int := 0
  clockRate : Int := 0
  channels : Int := 0
  rtcpFeedback : List RtcpFeedback := []
  parameters : Option RtpCodecParameter := none
  payloadType : Int := 0
deriving DecidableEq

/-- Modelled from the spec (§3): header extension; the same Go struct carries
capability extensions (`Kind`, `Uri`, `PreferredId`) and concrete usages
(`Uri`, `Id`). -/
structure RtpHeaderExtension where
  kind : String := ""
  uri : String := ""
  preferredId : Int := 0
  id : Int := 0
deriving DecidableEq

/-- Modelled from the spec (§3): the nested RTX encoding.  In Go the field is
`Rtx *RtpEncoding`; only its `Ssrc` field is ever written or read by ortc.go,
so the model keeps exactly that field. -/
structure RtpEncodingRtx where
  ssrc : Nat := 0
deriving DecidableEq

/-- Modelled from the spec (§3): one RTP encoding (ssrc, optional rid,
optional codecPayloadType, optional nested rtx). -/
structure RtpEncoding where
  ssrc : Nat := 0
  rid : String := ""
  codecPayloadType : Int := 0
  rtx : Option RtpEncodingRtx := none
deriving DecidableEq

/-- Modelled from the spec (§3): RTCP configuration (the Go struct name is
spelled `RtcpConfiguation`); `Mux` is a `*bool` in Go, hence `Option Bool`. -/
structure RtcpConfiguation where
  cname : String := ""
  reducedSize : Bool := false
  mux : Option Bool := none
deriving DecidableEq

/-- Modelled from the spec (§3): a capability set. -/
structure RtpCapabilities where
  codecs : List RtpCodecCapability := []
  headerExtensions : List RtpHeaderExtension := []
  fecMechanisms : List String := []
deriving DecidableEq

/-- Modelled from the spec (§3): concrete per-stream parameters. -/
structure RtpParameters where
  codecs : List RtpCodecCapability := []
  headerExtensions : List RtpHeaderExtension := []
  encodings : List RtpEncoding := []
  rtcp : RtcpConfiguation := {}
deriving DecidableEq

/-- Modelled from the spec (§3): one codec correspondence of a producer
mapping. -/
structure RtpMappingCodec where
  payloadType : Int := 0
  mappedPayloadType : Int := 0
deriving DecidableEq

/-- Modelled from the spec (§3): one header-extension correspondence. -/
structure RtpMappingHeaderExt where
  id : Int := 0
  mappedId : Int := 0
deriving DecidableEq

/-- Modelled from the spec (§3): one encoding correspondence. -/
structure RtpMappingEncoding where
  rid : String := ""
  ssrc : Nat := 0
  mappedSsrc : Nat := 0
deriving DecidableEq

/-- Modelled from the spec (§3): the correspondence table of one producer. -/
structure RtpMappingParameters where
  codecs : List RtpMappingCodec := []
  headerExtensions : List RtpMappingHeaderExt := []
  encodings : List RtpMappingEncoding := []
deriving DecidableEq

/-- Errors raised by ortc.go.  `typeError` models `NewTypeError`,
`unsupportedError` models `NewUnsupportedError`, `allocError` models the
plain `errors.New` used for dynamic payload-type exhaustion, and
`runtimePanic` models a Go runtime panic (nil-pointer dereference or index
out of range), which in Go would abort instead of returning. -/
inductive OrtcError where
  | typeError (msg : String)
  | unsupportedError (msg : String)
  | allocError (msg : String)
  | runtimePanic (msg : String)
deriving DecidableEq

/-- Modelled from the spec (§6): the external H.264 profile-level-id
negotiation function `h264.GenerateProfileLevelIdForAnswer` (an external
package, opaque to this core): it yields the negotiated profile-level-id or
fails.  All matching operations are parametric in it. -/
def H264Negotiate : Type := RtpH264Parameter → RtpH264Parameter → Option String

/-- Modelled from the spec (§6): the external random source behind
`generateRandomNumber` (defined outside `src/`): `rng i` is the value of the
i-th call made by the operation at hand. -/
def Rng : Type := Nat → Nat

/-- `DYNAMIC_PAYLOAD_TYPES` (ortc.go lines 13-19), verbatim. -/
def DYNAMIC_PAYLOAD_TYPES : List Int :=
  [100, 101, 102, 103, 104, 105, 106, 107, 108, 109, 110, 111, 112, 113, 114, 115,
   116, 117, 118, 119, 120, 121, 122, 123, 124, 125, 126, 127, 96, 97, 98, 99, 77,
   78, 79, 80, 81, 82, 83, 84, 85, 86, 87, 88, 89, 90, 91, 92, 93, 94, 95, 35, 36,
   37, 38, 39, 40, 41, 42, 43, 44, 45, 46, 47, 48, 49, 50, 51, 52, 53, 54, 55, 56,
   57, 58, 59, 60, 61, 62, 63, 64, 65, 66, 67, 68, 69, 70, 71]

def codecMatchNormal : Nat := 0
def codecMatchStrict : Nat := 0x01
def codecMatchModify : Nat := 0x10
def codecMatchStrictAndModify : Nat := codecMatchStrict ||| codecMatchModify

/-- ASCII lower-casing of one character.  `strings.ToLower` in Go lowers by
the Unicode tables; every string this code lowers is an ASCII mime type, on
which the two coincide. -/
def charToLowerGo (c : Char) : Char :=
  if 'A' ≤ c ∧ c ≤ 'Z' then Char.ofNat (c.toNat + 32) else c

/-- `strings.ToLower` (ASCII-exact model, kernel-reducible). -/
def toLowerGo (s : String) : String := ⟨s.data.map charToLowerGo⟩

/-- `strings.HasSuffix s suf`. -/
def endsWithGo (s suf : String) : Bool := suf.data.isSuffixOf s.data

/-- `strings.HasPrefix s p`. -/
def beginsWithGo (s p : String) : Bool := p.data.isPrefixOf s.data

/-- `strings.Split(s, "/")[0]`: the characters before the first slash. -/
def mimeKindOf (s : String) : String := ⟨s.data.takeWhile (fun c => c ≠ '/')⟩

/-- `strings.HasSuffix(strings.ToLower(s), "/rtx")` — the case-insensitive
RTX test used in ortc.go lines 144, 162, 191, 278, 314, 495.  (Other sites,
ortc.go lines 398, 439 and 446, use the case-sensitive `HasSuffix` directly
and are modelled with a plain `endsWithGo`.) -/
def isRtxMime (s : String) : Bool :=
  endsWithGo (toLowerGo s) "/rtx"

/-- `matchedCodecs` (ortc.go lines 563-614).  Returns the match result
together with the possibly updated `aCodec`: under Strict+Modify a
successful H.264 match writes the negotiated profile-level-id into
`aCodec.Parameters` (the Go side effect, returned here as a value). -/
def matchedCodecs (neg : H264Negotiate) (aCodec : RtpCodecCapability)
    (bCodec : RtpCodecCapability) (mode : Nat) : Bool × RtpCodecCapability :=
  let aMimeType := toLowerGo aCodec.mimeType
  let bMimeType := toLowerGo bCodec.mimeType
  if aMimeType ≠ bMimeType then (false, aCodec)
  else if aCodec.clockRate ≠ bCodec.clockRate then (false, aCodec)
  else if beginsWithGo aMimeType "audio/" ∧ aCodec.channels > 0 ∧
      bCodec.channels > 0 ∧ aCodec.channels ≠ bCodec.channels then (false, aCodec)
  else if aMimeType = "video/h264" then
    let aParameters := aCodec.parameters.getD {}
    let bParameters := bCodec.parameters.getD {}
    if aParameters.rtpH264Parameter.packetizationMode ≠
        bParameters.rtpH264Parameter.packetizationMode then (false, aCodec)
    else if mode &&& codecMatchStrict > 0 then
      match neg aParameters.rtpH264Parameter bParameters.rtpH264Parameter with
      | none => (false, aCodec)
      | some selectedProfileLevelId =>
        if mode &&& codecMatchModify > 0 then
          let aParameters :=
            { aParameters with rtpH264Parameter :=
                { aParameters.rtpH264Parameter with profileLevelId := selectedProfileLevelId } }
          (true, { aCodec with parameters := some aParameters })
        else (true, aCodec)
    else (true, aCodec)
  else (true, aCodec)

/-- `selectMatchedCodecs` (ortc.go lines 551-561): first match in the given
order; returns (matched capability codec, possibly updated `aCodec`,
matched-flag).  When nothing matches, Go returns the zero-value codec. -/
def selectMatchedCodecs (neg : H264Negotiate) (aCodec : RtpCodecCapability)
    (bCodecs : List RtpCodecCapability) (mode : Nat) :
    RtpCodecCapability × RtpCodecCapability × Bool :=
  match bCodecs with
  | [] => ({}, aCodec, false)
  | bCodec :: rest =>
    let r := matchedCodecs neg aCodec bCodec mode
    if r.1 then (bCodec, r.2, true) else selectMatchedCodecs neg aCodec rest mode

/-- `matchHeaderExtensions` (ortc.go lines 616-624). -/
def matchHeaderExtensions (aExt bExt : RtpHeaderExtension) : Bool :=
  if aExt.kind.length > 0 ∧ bExt.kind.length > 0 ∧ aExt.kind ≠ bExt.kind then false
  else aExt.uri = bExt.uri

/-- `checkCodecCapability` (ortc.go lines 531-542): validation plus the
in-place kind normalization (returned as a value). -/
def checkCodecCapability (codec : RtpCodecCapability) :
    Except OrtcError RtpCodecCapability :=
  if codec.mimeType.length = 0 ∨ codec.clockRate = 0 then
    .error (.typeError "invalid RTCRtpCodecCapability")
  else if codec.kind.length = 0 then
    .ok { codec with kind := toLowerGo (mimeKindOf codec.mimeType) }
  else .ok codec

/-- `checkCodecParameters` (ortc.go lines 544-549). -/
def checkCodecParameters (codec : RtpCodecCapability) : Option OrtcError :=
  if codec.mimeType.length = 0 ∨ codec.clockRate = 0 then
    some (.typeError "invalid RTCRtpCodecParameter\x7bs")
  else none


/-- `mergo.Merge(dst, src, mergo.WithOverride)` on `RtpCodecParameter`
(ortc.go line 75), modelled field-wise on the modelled fields: a non-zero
source field overrides the destination, a zero source field is skipped
(mergo never writes zero values, with or without override).  In Go the
destination is reached through the matched table codec's `Parameters`
pointer; whether that struct is shared with the table returned by
`GetSupportedRtpCapabilities` (outside `src/`) is that function's business,
so the model merges into a per-codec value. -/
def mergeCodecParameters (dst : RtpCodecParameter) (src : Option RtpCodecParameter) :
    RtpCodecParameter :=
  match src with
  | none => dst
  | some src =>
    { apt := if src.apt ≠ 0 then src.apt else dst.apt,
      rtpH264Parameter :=
        { packetizationMode :=
            if src.rtpH264Parameter.packetizationMode ≠ 0 then
              src.rtpH264Parameter.packetizationMode
            else dst.rtpH264Parameter.packetizationMode,
          profileLevelId :=
            if src.rtpH264Parameter.profileLevelId ≠ "" then
              src.rtpH264Parameter.profileLevelId
            else dst.rtpH264Parameter.profileLevelId } }

/-- Payload-type assignment step of `GenerateRouterRtpCapabilities`
(ortc.go lines 83-93): reuse a non-zero preferred payload type, otherwise
pop the next entry of `DYNAMIC_PAYLOAD_TYPES` at cursor `idx` (exhaustion is
the allocation error). -/
def assignPayloadType (codec : RtpCodecCapability) (idx : Nat) :
    Except OrtcError (RtpCodecCapability × Nat) :=
  if codec.preferredPayloadType = 0 then
    match DYNAMIC_PAYLOAD_TYPES.get? idx with
    | none => .error (.allocError "cannot allocate more dynamic codec payload types")
    | some pt => .ok ({ codec with preferredPayloadType := pt }, idx + 1)
  else .ok (codec, idx)

/-- The loop body of `GenerateRouterRtpCapabilities` (ortc.go lines 49-122):
processes the configured codecs in order, threading the dynamic payload-type
cursor `idx` and the partially built capabilities (Go named return `caps`).
On error the partially built `caps` is returned together with the error,
exactly as the Go named-return `return` statements do. -/
def generateRouterLoop (neg : H264Negotiate) (supportedCodecs : List RtpCodecCapability)
    (mediaCodecs : List RtpCodecCapability) (idx : Nat) (caps : RtpCapabilities) :
    RtpCapabilities × Option OrtcError :=
  match mediaCodecs with
  | [] => (caps, none)
  | mediaCodec :: rest =>
    match checkCodecCapability mediaCodec with
    | .error e => (caps, some e)
    | .ok mediaCodec =>
      let sel := selectMatchedCodecs neg mediaCodec supportedCodecs codecMatchNormal
      if sel.2.2 = false then
        (caps, some (.unsupportedError
          ("media codec not supported [mimeType:" ++ mediaCodec.mimeType ++ "]")))
      else
        let codec := sel.1
        -- Normalize channels.
        let codec :=
          if codec.kind ≠ "audio" then { codec with channels := 0 }
          else if codec.channels = 0 then { codec with channels := 1 }
          else codec
        -- Merge the media codec parameters (nil Parameters becomes the zero
        -- struct first, as in ortc.go lines 71-76).
        let mergedParams := mergeCodecParameters (codec.parameters.getD {}) mediaCodec.parameters
        let codec := { codec with parameters := some mergedParams }
        -- `codec.RtcpFeedback == nil` is replaced by an empty slice in Go
        -- (lines 79-81); nil and empty slices coincide in this model.
        -- Assign a payload type.
        match assignPayloadType codec idx with
        | .error e => (caps, some e)
        | .ok (codec, idx) =>
          let caps := { caps with codecs := caps.codecs ++ [codec] }
          -- Add a RTX video codec if video.
          if codec.kind = "video" then
            match DYNAMIC_PAYLOAD_TYPES.get? idx with
            | none => (caps, some (.allocError "cannot allocate more dynamic codec payload types"))
            | some pt =>
              let rtxCodec : RtpCodecCapability :=
                { kind := codec.kind,
                  mimeType := codec.kind ++ "/rtx",
                  preferredPayloadType := pt,
                  clockRate := codec.clockRate,
                  rtcpFeedback := [],
                  parameters := some { apt := codec.preferredPayloadType } }
              generateRouterLoop neg supportedCodecs rest (idx + 1)
                { caps with codecs := caps.codecs ++ [rtxCodec] }
          else
            generateRouterLoop neg supportedCodecs rest idx caps

/-- `GenerateRouterRtpCapabilities` (ortc.go lines 35-125).  The supported
table `GetSupportedRtpCapabilities()` is defined outside `src/`; modelled
from the spec (§6) as the read-only parameter `supportedRtpCapabilities`. -/
def GenerateRouterRtpCapabilities (neg : H264Negotiate)
    (supportedRtpCapabilities : RtpCapabilities)
    (mediaCodecs : List RtpCodecCapability) : RtpCapabilities × Option OrtcError :=
  if mediaCodecs.length = 0 then
    ({}, some (.typeError "mediaCodecs cannot be empty"))
  else
    generateRouterLoop neg supportedRtpCapabilities.codecs mediaCodecs 0
      { headerExtensions := supportedRtpCapabilities.headerExtensions,
        fecMechanisms := supportedRtpCapabilities.fecMechanisms }

/-- Lookup in the `codecToCapCodec` map of `GetProducerRtpParametersMapping`.
The Go map is keyed by `&params.Codecs[i]`, i.e. by the index `i`; a missing
key yields the zero-value codec (ortc.go line 185). -/
def lookupCodecEntry (entries : List (Nat × RtpCodecCapability)) (i : Nat) :
    RtpCodecCapability :=
  match entries with
  | [] => {}
  | (j, c) :: rest => if j = i then c else lookupCodecEntry rest i

/-- Pass 1 of `GetProducerRtpParametersMapping` (ortc.go lines 139-159) over
the index-enumerated producer codecs.  `.error` models the immediate
`return` after a failed `checkCodecParameters` (at which point the named
return `rtpMapping` is still empty).  NOTE the faithfully modelled slip of
ortc.go lines 151-158: a failed Strict+Modify match only assigns `err`
without returning, so the loop records the zero-value capability codec for
that entry and continues, and the next iteration's
`err = checkCodecParameters(codec)` assignment resets `err` to nil.  The
mutable Go variable `err` is threaded as the parameter `err`, and the
returned `Option OrtcError` is the value it holds when the loop ends.
The Strict+Modify profile-level-id write-back into the producer codec's
parameters is not threaded: no later statement of this function reads
`profileLevelId` (pass 2 reads only `PayloadType` and the RTX `Apt`). -/
def producerPass1 (neg : H264Negotiate) (capCodecs : List RtpCodecCapability)
    (indexedCodecs : List (Nat × RtpCodecCapability)) (err : Option OrtcError) :
    Except OrtcError (List (Nat × RtpCodecCapability) × Option OrtcError) :=
  match indexedCodecs with
  | [] => .ok ([], err)
  | (i, codec) :: rest =>
    match checkCodecParameters codec with
    | some e => .error e
    | none =>
      -- the assignment `err = checkCodecParameters(codec)` left err nil here
      if isRtxMime codec.mimeType then producerPass1 neg capCodecs rest none
      else
        let sel := selectMatchedCodecs neg codec capCodecs codecMatchStrictAndModify
        let err : Option OrtcError :=
          if sel.2.2 then none
          else some (.unsupportedError
            ("unsupported codec [mimeType:" ++ codec.mimeType ++ ", payloadType:" ++
              toString codec.preferredPayloadType ++ "]"))
        match producerPass1 neg capCodecs rest err with
        | .error e => .error e
        | .ok (entries, errOut) => .ok ((i, sel.1) :: entries, errOut)

/-- The capability-RTX search shared by pass 2 of the producer mapping
(ortc.go lines 190-198) and the consumable deriver (ortc.go lines 313-319):
the first capability codec with an RTX mime type whose `Parameters.Apt`
equals `pt`.  A nil `Parameters` on a visited RTX capability codec is a Go
nil-pointer dereference, modelled as `runtimePanic`. -/
def findCapRtxCodec (capCodecs : List RtpCodecCapability) (pt : Int) :
    Except OrtcError (Option RtpCodecCapability) :=
  match capCodecs with
  | [] => .ok none
  | capCodec :: rest =>
    if isRtxMime capCodec.mimeType = false then findCapRtxCodec rest pt
    else
      match capCodec.parameters with
      | none => .error (.runtimePanic "nil Parameters dereference on RTX capability codec")
      | some p => if p.apt = pt then .ok (some capCodec) else findCapRtxCodec rest pt

/-- First producer codec (by index) whose `PayloadType` equals `apt`
(ortc.go lines 173-178). -/
def findAssociatedMediaCodec (indexedCodecs : List (Nat × RtpCodecCapability))
    (apt : Int) : Option (Nat × RtpCodecCapability) :=
  match indexedCodecs with
  | [] => none
  | (i, c) :: rest =>
    if c.payloadType = apt then some (i, c) else findAssociatedMediaCodec rest apt

/-- Pass 2 of `GetProducerRtpParametersMapping` (ortc.go lines 161-209):
handles the RTX producer codecs, appending their entries to the map.  All
error paths here `return` immediately (with the named return `rtpMapping`
still empty). -/
def producerPass2 (allIndexed : List (Nat × RtpCodecCapability))
    (capCodecs : List RtpCodecCapability)
    (entries1 : List (Nat × RtpCodecCapability))
    (indexedCodecs : List (Nat × RtpCodecCapability)) :
    Except OrtcError (List (Nat × RtpCodecCapability)) :=
  match indexedCodecs with
  | [] => .ok []
  | (i, codec) :: rest =>
    if isRtxMime codec.mimeType = false then producerPass2 allIndexed capCodecs entries1 rest
    else
      match codec.parameters with
      | none => .error (.typeError "missing parameters in RTX codec")
      | some codecParameters =>
        match findAssociatedMediaCodec allIndexed codecParameters.apt with
        | none => .error (.typeError
            ("missing media codec found for RTX PT " ++ toString codec.payloadType))
        | some (j, _) =>
          let capMediaCodec := lookupCodecEntry entries1 j
          match findCapRtxCodec capCodecs capMediaCodec.preferredPayloadType with
          | .error e => .error e
          | .ok none => .error (.unsupportedError
              ("no RTX codec for capability codec PT " ++
                toString capMediaCodec.preferredPayloadType))
          | .ok (some associatedCapRtxCodec) =>
            match producerPass2 allIndexed capCodecs entries1 rest with
            | .error e => .error e
            | .ok entries => .ok ((i, associatedCapRtxCodec) :: entries)

/-- Header-extension mapping loop of `GetProducerRtpParametersMapping`
(ortc.go lines 220-246): on an unmatched extension the Go code returns the
extensions mapped so far (the codec mapping is already emitted at that
point) together with the unsupported error. -/
def producerExtsLoop (capExts : List RtpHeaderExtension)
    (exts : List RtpHeaderExtension) : List RtpMappingHeaderExt × Option OrtcError :=
  match exts with
  | [] => ([], none)
  | ext :: rest =>
    match capExts.find? (fun capExt => matchHeaderExtensions ext capExt) with
    | none => ([], some (.unsupportedError
        ("unsupported header extensions [uri:" ++ ext.uri ++ ", id:" ++
          toString ext.id ++ "]")))
    | some matchedCapExt =>
      let r := producerExtsLoop capExts rest
      ({ id := ext.id, mappedId := matchedCapExt.preferredId } :: r.1, r.2)

/-- `GetProducerRtpParametersMapping` (ortc.go lines 132-260).  Returns the
Go named-return pair `(rtpMapping, err)`.  The Go code emits the codec
mapping by ranging over a Go map whose iteration order is unspecified; this
model emits the pass-1 entries (producer codec order) followed by the
pass-2 entries, one deterministic choice of that order (the spec §9 flags
the order as fragile; no settled claim depends on it).  `generateRandomNumber`
is outside `src/` and modelled from the spec (§6) by `rng`: the i-th
encoding receives `rng i` as its mapped SSRC. -/
def GetProducerRtpParametersMapping (neg : H264Negotiate) (rng : Rng)
    (params : RtpParameters) (caps : RtpCapabilities) :
    RtpMappingParameters × Option OrtcError :=
  let indexed := params.codecs.enum
  match producerPass1 neg caps.codecs indexed none with
  | .error e => ({}, some e)
  | .ok (entries1, err1) =>
    match producerPass2 indexed caps.codecs entries1 indexed with
    | .error e => ({}, some e)
    | .ok entries2 =>
      let mappingCodecs := (entries1 ++ entries2).map (fun p =>
        { payloadType := (lookupCodecEntry indexed p.1).payloadType,
          mappedPayloadType := p.2.preferredPayloadType : RtpMappingCodec })
      let extsResult := producerExtsLoop caps.headerExtensions params.headerExtensions
      match extsResult.2 with
      | some e => ({ codecs := mappingCodecs, headerExtensions := extsResult.1 }, some e)
      | none =>
        let mappingEncodings := params.encodings.enum.map (fun p =>
          { rid := p.2.rid, ssrc := p.2.ssrc, mappedSsrc := rng p.1 : RtpMappingEncoding })
        ({ codecs := mappingCodecs, headerExtensions := extsResult.1,
           encodings := mappingEncodings }, err1)

/-- The mapped payload type of a producer codec (ortc.go lines 282-289):
first mapping entry with the codec's payload type, else the initial value 0. -/
def consumableCodecPtOf (mappingCodecs : List RtpMappingCodec) (pt : Int) : Int :=
  match mappingCodecs with
  | [] => 0
  | entry :: rest =>
    if entry.payloadType = pt then entry.mappedPayloadType
    else consumableCodecPtOf rest pt

/-- First capability codec whose preferred payload type equals `pt`
(ortc.go lines 291-298); the zero-value codec when there is none. -/
def findCapCodecByPt (capCodecs : List RtpCodecCapability) (pt : Int) :
    RtpCodecCapability :=
  match capCodecs with
  | [] => {}
  | capCodec :: rest =>
    if capCodec.preferredPayloadType = pt then capCodec else findCapCodecByPt rest pt

/-- The consumable codec emitted for one non-RTX producer codec (ortc.go
lines 282-307): the capability codec at the mapped payload type supplies
mime type, clock rate, channels and RTCP feedback; the producer codec keeps
its own parameters. -/
def consumableCodecFor (caps : RtpCapabilities) (rtpMapping : RtpMappingParameters)
    (codec : RtpCodecCapability) : RtpCodecCapability :=
  let consumableCodecPt := consumableCodecPtOf rtpMapping.codecs codec.payloadType
  let matchedCapCodec := findCapCodecByPt caps.codecs consumableCodecPt
  { mimeType := matchedCapCodec.mimeType,
    clockRate := matchedCapCodec.clockRate,
    channels := matchedCapCodec.channels,
    rtcpFeedback := matchedCapCodec.rtcpFeedback,
    parameters := codec.parameters,  -- Keep the Producer parameters.
    payloadType := matchedCapCodec.preferredPayloadType }

/-- The codec loop of `GetConsumableRtpParameters` (ortc.go lines 273-333),
accumulating the consumable codec list (the partially built Go named return
`consumableParams.Codecs`). -/
def consumableCodecsLoop (caps : RtpCapabilities) (rtpMapping : RtpMappingParameters)
    (codecs : List RtpCodecCapability) (acc : List RtpCodecCapability) :
    List RtpCodecCapability × Option OrtcError :=
  match codecs with
  | [] => (acc, none)
  | codec :: rest =>
    match checkCodecParameters codec with
    | some e => (acc, some e)
    | none =>
      if isRtxMime codec.mimeType then consumableCodecsLoop caps rtpMapping rest acc
      else
        let consumableCodec := consumableCodecFor caps rtpMapping codec
        let acc := acc ++ [consumableCodec]
        match findCapRtxCodec caps.codecs consumableCodec.payloadType with
        | .error e => (acc, some e)
        | .ok none => consumableCodecsLoop caps rtpMapping rest acc
        | .ok (some consumableCapRtxCodec) =>
          let consumableRtxCodec : RtpCodecCapability :=
            { mimeType := consumableCapRtxCodec.mimeType,
              clockRate := consumableCapRtxCodec.clockRate,
              channels := consumableCapRtxCodec.channels,
              rtcpFeedback := consumableCapRtxCodec.rtcpFeedback,
              parameters := consumableCapRtxCodec.parameters,
              payloadType := consumableCapRtxCodec.preferredPayloadType }
          consumableCodecsLoop caps rtpMapping rest (acc ++ [consumableRtxCodec])

/-- The header-extension filter of `GetConsumableRtpParameters`
(ortc.go lines 335-350). -/
def consumableHeaderExtensions (kind : String) (capExts : List RtpHeaderExtension) :
    List RtpHeaderExtension :=
  match capExts with
  | [] => []
  | capExt :: rest =>
    if capExt.kind ≠ kind ∨
        capExt.uri = "urn:ietf:params:rtp-hdrext:sdes:mid" ∨
        capExt.uri = "urn:ietf:params:rtp-hdrext:sdes:rtp-stream-id" ∨
        capExt.uri = "urn:ietf:params:rtp-hdrext:sdes:repaired-rtp-stream-id" then
      consumableHeaderExtensions kind rest
    else
      { uri := capExt.uri, id := capExt.preferredId } :: consumableHeaderExtensions kind rest

/-- The encoding loop of `GetConsumableRtpParameters` (ortc.go lines
352-359): `rtpMapping.Encodings[i]` panics in Go when the mapping's encoding
list is shorter than the producer's. -/
def consumableEncodings (paramsEncodings : List RtpEncoding)
    (mappingEncodings : List RtpMappingEncoding) :
    Except OrtcError (List RtpEncoding) :=
  match paramsEncodings, mappingEncodings with
  | [], _ => .ok []
  | _ :: _, [] => .error (.runtimePanic "index out of range in rtpMapping.Encodings")
  | encoding :: restP, mapped :: restM =>
    match consumableEncodings restP restM with
    | .error e => .error e
    | .ok rest =>
      .ok ({ encoding with
               rid := "", rtx := none, codecPayloadType := 0,
               ssrc := mapped.mappedSsrc } :: rest)

/-- `GetConsumableRtpParameters` (ortc.go lines 267-368), as the Go
named-return pair `(consumableParams, err)`. -/
def GetConsumableRtpParameters (kind : String) (params : RtpParameters)
    (caps : RtpCapabilities) (rtpMapping : RtpMappingParameters) :
    RtpParameters × Option OrtcError :=
  match consumableCodecsLoop caps rtpMapping params.codecs [] with
  | (codecsAcc, some e) => ({ codecs := codecsAcc }, some e)
  | (codecsAcc, none) =>
    let exts := consumableHeaderExtensions kind caps.headerExtensions
    match consumableEncodings params.encodings rtpMapping.encodings with
    | .error e => ({ codecs := codecsAcc, headerExtensions := exts }, some e)
    | .ok encodings =>
      ({ codecs := codecsAcc,
         headerExtensions := exts,
         encodings := encodings,
         rtcp := { cname := params.rtcp.cname, reducedSize := true, mux := some true } },
       none)

/-- The capability-validation loop of `CanConsume` (ortc.go lines 375-382):
collects the validated (kind-normalized) copies, `none` as soon as one
codec fails validation. -/
def collectCapCodecs (capCodecs : List RtpCodecCapability) :
    Option (List RtpCodecCapability) :=
  match capCodecs with
  | [] => some []
  | capCodec :: rest =>
    match checkCodecCapability capCodec with
    | .error _ => none
    | .ok capCodec =>
      match collectCapCodecs rest with
      | none => none
      | some validated => some (capCodec :: validated)

/-- The matching loop of `CanConsume` (ortc.go lines 384-394): the Strict
matches of the consumable codecs against the validated capability codecs,
unmatched codecs discarded. -/
def canConsumeMatching (neg : H264Negotiate) (consumableCodecs : List RtpCodecCapability)
    (capCodecs : List RtpCodecCapability) : List RtpCodecCapability :=
  match consumableCodecs with
  | [] => []
  | codec :: rest =>
    let sel := selectMatchedCodecs neg codec capCodecs codecMatchStrict
    if sel.2.2 then sel.1 :: canConsumeMatching neg rest capCodecs
    else canConsumeMatching neg rest capCodecs

/-- `CanConsume` (ortc.go lines 374-403): a total boolean function, it
never returns an error.  Note that the final RTX test on the first matching
codec (line 398) uses the case-sensitive `strings.HasSuffix`. -/
def CanConsume (neg : H264Negotiate) (consumableParams : RtpParameters)
    (caps : RtpCapabilities) : Bool :=
  match collectCapCodecs caps.codecs with
  | none => false
  | some capCodecs =>
    match canConsumeMatching neg consumableParams.codecs capCodecs with
    | [] => false
    | m :: _ => !(endsWithGo m.mimeType "/rtx")

/-- The capability-validation pass of `GetConsumerRtpParameters` (ortc.go
lines 418-422): first validation error, if any.  (The kind normalization is
applied to the Go range copy only and is therefore dropped.) -/
def firstCapCodecError (capCodecs : List RtpCodecCapability) : Option OrtcError :=
  match capCodecs with
  | [] => none
  | capCodec :: rest =>
    match checkCodecCapability capCodec with
    | .error e => some e
    | .ok _ => firstCapCodecError rest

/-- The codec-reduction loop of `GetConsumerRtpParameters` (ortc.go lines
428-442), threading the accumulated consumer codecs and the `rtxSupported`
flag.  The RTX test on retained codecs (line 439) is the case-sensitive
`strings.HasSuffix`. -/
def consumerCodecsLoop (neg : H264Negotiate) (capCodecs : List RtpCodecCapability)
    (consumableCodecs : List RtpCodecCapability)
    (acc : List RtpCodecCapability) (rtxSupported : Bool) :
    List RtpCodecCapability × Bool :=
  match consumableCodecs with
  | [] => (acc, rtxSupported)
  | codec :: rest =>
    let sel := selectMatchedCodecs neg codec capCodecs codecMatchStrict
    if sel.2.2 = false then consumerCodecsLoop neg capCodecs rest acc rtxSupported
    else
      let codec := { codec with rtcpFeedback := sel.1.rtcpFeedback }
      let rtxSupported := rtxSupported || endsWithGo codec.mimeType "/rtx"
      consumerCodecsLoop neg capCodecs rest (acc ++ [codec]) rtxSupported

/-- `GetConsumerRtpParameters` (ortc.go lines 413-475), as the Go
named-return pair.  `consumerParams.HeaderExtensions` is initialized to the
empty list up front (line 416), so it is empty on every early return. -/
def GetConsumerRtpParameters (neg : H264Negotiate) (rng : Rng)
    (consumableParams : RtpParameters) (caps : RtpCapabilities) :
    RtpParameters × Option OrtcError :=
  match firstCapCodecError caps.codecs with
  | some e => ({ headerExtensions := [] }, some e)
  | none =>
    let r := consumerCodecsLoop neg caps.codecs consumableParams.codecs [] false
    let codecs := r.1
    let rtxSupported := r.2
    -- Ensure there is at least one media codec.
    if codecs.length = 0 ∨ endsWithGo (codecs.headD {}).mimeType "/rtx" then
      ({ codecs := codecs, headerExtensions := [] },
       some (.unsupportedError "no compatible media codecs"))
    else
      let exts := consumableParams.headerExtensions.filter (fun ext =>
        caps.headerExtensions.any (fun capExt => capExt.preferredId = ext.id))
      let consumerEncoding : RtpEncoding :=
        { ssrc := rng 0,
          rtx := if rtxSupported then some { ssrc := rng 1 } else none }
      ({ codecs := codecs,
         headerExtensions := exts,
         encodings := [consumerEncoding],
         rtcp := consumableParams.rtcp }, none)

/-- The feedback filter of `GetPipeConsumerRtpParameters` (ortc.go lines
499-506): keep exactly the (nack, pli) and (ccm, fir) entries. -/
def pipeRtcpFeedbackLoop (fbs : List RtcpFeedback) : List RtcpFeedback :=
  match fbs with
  | [] => []
  | fb :: rest =>
    if (fb.type = "nack" ∧ fb.parameter = "pli") ∨
        (fb.type = "ccm" ∧ fb.parameter = "fir") then
      fb :: pipeRtcpFeedbackLoop rest
    else pipeRtcpFeedbackLoop rest

/-- The codec loop of `GetPipeConsumerRtpParameters` (ortc.go lines
494-510): drop RTX codecs, reduce the feedback of the retained ones. -/
def pipeCodecsLoop (codecs : List RtpCodecCapability) : List RtpCodecCapability :=
  match codecs with
  | [] => []
  | codec :: rest =>
    if isRtxMime codec.mimeType then pipeCodecsLoop rest
    else
      { codec with rtcpFeedback := pipeRtcpFeedbackLoop codec.rtcpFeedback } ::
        pipeCodecsLoop rest

/-- The header-extension loop of `GetPipeConsumerRtpParameters` (ortc.go
lines 513-517): drop the abs-send-time extension. -/
def pipeHeaderExtensionsLoop (exts : List RtpHeaderExtension) : List RtpHeaderExtension :=
  match exts with
  | [] => []
  | ext :: rest =>
    if ext.uri ≠ "http://www.webrtc.org/experiments/rtp-hdrext/abs-send-time" then
      ext :: pipeHeaderExtensionsLoop rest
    else pipeHeaderExtensionsLoop rest

/-- The encoding loop of `GetPipeConsumerRtpParameters` (ortc.go lines
519-526): keep every encoding, clearing only its rtx field. -/
def pipeEncodingsLoop (encodings : List RtpEncoding) : List RtpEncoding :=
  match encodings with
  | [] => []
  | encoding :: rest => { encoding with rtx := none } :: pipeEncodingsLoop rest

/-- `GetPipeConsumerRtpParameters` (ortc.go lines 488-529): total, never
fails. -/
def GetPipeConsumerRtpParameters (consumableParams : RtpParameters) : RtpParameters :=
  { rtcp := consumableParams.rtcp,
    codecs := pipeCodecsLoop consumableParams.codecs,
    headerExtensions := pipeHeaderExtensionsLoop consumableParams.headerExtensions,
    encodings := pipeEncodingsLoop consumableParams.encodings }

/-- A codec with its RTCP feedback erased, for stating that the consumer
reduction only relabels feedback. -/
def eraseRtcpFeedback (c : RtpCodecCapability) : RtpCodecCapability :=
  { c with rtcpFeedback := [] }

/-- `r` is the RTX sibling synthesized for `c` by the router capability
builder: mime type `<kind>/rtx`, the same clock rate, empty RTCP feedback,
and an `apt` parameter equal to `c`'s assigned payload type. -/
def isRtxSiblingOf (c r : RtpCodecCapability) : Bool :=
  (r.mimeType == c.kind ++ "/rtx") && (r.clockRate == c.clockRate) &&
  (r.rtcpFeedback == []) &&
  (match r.parameters with
   | some p => p.apt == c.preferredPayloadType
   | none => false)

/-- The adjacency property exactly as claimed: EVERY codec whose `kind` is
"video" is immediately followed by its RTX sibling.  (This is refuted by
the synthesized RTX sibling itself, whose kind is also "video".) -/
def videoKindAdjacentOk (codecs : List RtpCodecCapability) : Bool :=
  match codecs with
  | [] => true
  | c :: rest =>
    if c.kind == "video" then
      (match rest with
       | [] => false
       | r :: _ => isRtxSiblingOf c r) && videoKindAdjacentOk rest
    else videoKindAdjacentOk rest

/-- The adjacency property restricted to non-RTX codecs: every codec of
kind "video" whose own mime type is not an RTX mime type is immediately
followed by its RTX sibling. -/
def rtxAdjacentOk (codecs : List RtpCodecCapability) : Bool :=
  match codecs with
  | [] => true
  | c :: rest =>
    if c.kind == "video" && !(isRtxMime c.mimeType) then
      (match rest with
       | [] => false
       | r :: _ => isRtxSiblingOf c r) && rtxAdjacentOk rest
    else rtxAdjacentOk rest

/-!  Concrete sample data used by witnesses and counterexamples. -/

/-- A concrete H.264 negotiation function (never consulted by the audio-only
sample data below). -/
def sampleNeg : H264Negotiate := fun _ _ => none

/-- A concrete random source. -/
def sampleRng : Rng := fun i => 3000 + i

def supOpus : RtpCodecCapability :=
  { kind := "audio", mimeType := "audio/opus", clockRate := 48000, channels := 2 }

def supVP8 : RtpCodecCapability :=
  { kind := "video", mimeType := "video/VP8", clockRate := 90000 }

def supTableAudio : RtpCapabilities := { codecs := [supOpus] }

def supTableVideo : RtpCapabilities := { codecs := [supVP8] }

def supTableAV : RtpCapabilities := { codecs := [supOpus, supVP8] }

def cfgOpus : RtpCodecCapability :=
  { mimeType := "audio/opus", clockRate := 48000, channels := 2 }

def cfgVP8 : RtpCodecCapability := { mimeType := "video/VP8", clockRate := 90000 }

/-- A producer opus codec, payload type 111; it Strict-matches `supOpus`. -/
def opusProducerCodec : RtpCodecCapability :=
  { mimeType := "audio/opus", payloadType := 111, clockRate := 48000, channels := 2 }

/-- A producer PCMU codec, payload type 9; the audio-only router capability
set below has no match for it. -/
def pcmuProducerCodec : RtpCodecCapability :=
  { mimeType := "audio/PCMU", payloadType := 9, clockRate := 8000 }

/-- Router capabilities generated from the opus-only table: one codec,
`audio/opus` at payload type 100. -/
def audioCaps : RtpCapabilities :=
  (GenerateRouterRtpCapabilities sampleNeg supTableAudio [cfgOpus]).1

/-- Producer parameters with a single matched codec. -/
def soloProducerParams : RtpParameters :=
  { codecs := [opusProducerCodec], encodings := [{ ssrc := 1111 }],
    rtcp := { cname := "solo" } }

/-- Producer parameters whose FIRST codec has no match in `audioCaps` and
whose second codec matches. -/
def mixedProducerParams : RtpParameters :=
  { codecs := [pcmuProducerCodec, opusProducerCodec], encodings := [{ ssrc := 2222 }],
    rtcp := { cname := "producer" } }

/-- The mapping the code produces for `mixedProducerParams` against
`audioCaps` (the unsupported-codec error raised on PCMU is swallowed by the
missing return, so the pair's error component is `none`). -/
def mixedMapping : RtpMappingParameters :=
  (GetProducerRtpParametersMapping sampleNeg sampleRng mixedProducerParams audioCaps).1

/-- The consumable parameters derived from `mixedProducerParams`. -/
def mixedConsumable : RtpParameters :=
  (GetConsumableRtpParameters "audio" mixedProducerParams audioCaps mixedMapping).1

/-- The mapping produced for the fully matched `soloProducerParams`. -/
def soloMapping : RtpMappingParameters :=
  (GetProducerRtpParametersMapping sampleNeg sampleRng soloProducerParams audioCaps).1

/-- An RTX-only capability codec (valid: non-empty mime type, non-zero
clock rate). -/
def rtxOnlyCapCodec : RtpCodecCapability :=
  { kind := "video", mimeType := "video/rtx", clockRate := 90000 }

/-- Consumable parameters whose only codec Strict-matches `rtxOnlyCapCodec`. -/
def rtxOnlyConsumableParams : RtpParameters :=
  { codecs := [{ mimeType := "video/rtx", clockRate := 90000, payloadType := 101 }] }

/-- A consumer capability codec for opus carrying its own feedback set. -/
def consumerCapOpus : RtpCodecCapability :=
  { kind := "audio", mimeType := "audio/opus", clockRate := 48000, channels := 2,
    rtcpFeedback := [{ type := "transport-cc" }] }

/-- Consumable parameters with one codec matched by `consumerCapOpus` and
one codec (PCMU) matched by nothing there. -/
def twoCodecConsumableParams : RtpParameters :=
  { codecs :=
      [{ mimeType := "audio/opus", clockRate := 48000, channels := 2,
         payloadType := 100, rtcpFeedback := [{ type := "nack" }] },
       { mimeType := "audio/PCMU", clockRate := 8000, payloadType := 102 }],
    rtcp := { cname := "cons" } }

/-- A consumer capability set holding only `consumerCapOpus`. -/
def consumerCaps : RtpCapabilities := { codecs := [consumerCapOpus] }

/-- The feedback entries the pipe deriver keeps: exactly (nack, pli) and
(ccm, fir). -/
def pipeAllowedFb (fb : RtcpFeedback) : Bool :=
  (fb.type == "nack" && fb.parameter == "pli") || (fb.type == "ccm" && fb.parameter == "fir")

/-!  Helper lemmas. -/

theorem generateRouterLoop_length (neg : H264Negotiate)
    (supportedCodecs : List RtpCodecCapability) :
    ∀ (mediaCodecs : List RtpCodecCapability) (idx : Nat) (caps caps' : RtpCapabilities),
      generateRouterLoop neg supportedCodecs mediaCodecs idx caps = (caps', none) →
      caps.codecs.length + mediaCodecs.length ≤ caps'.codecs.length := by
  intro mediaCodecs
  induction mediaCodecs with
  | nil =>
    intro idx caps caps' h
    simp only [generateRouterLoop, Prod.mk.injEq] at h
    simp [h.1]
  | cons mc rest ih =>
    intro idx caps caps' h
    simp only [generateRouterLoop] at h
    split at h
    · simp [Prod.mk.injEq] at h
    · split at h
      · simp [Prod.mk.injEq] at h
      · split at h
        · simp [Prod.mk.injEq] at h
        · split at h
          · split at h
            · simp [Prod.mk.injEq] at h
            · have := ih _ _ _ h
              simp only [List.length_append, List.length_cons, List.length_nil] at this ⊢
              omega
          · have := ih _ _ _ h
            simp only [List.length_append, List.length_cons, List.length_nil] at this ⊢
            omega

theorem rtxAdjacentOk_append :
    ∀ (xs ys : List RtpCodecCapability),
      rtxAdjacentOk xs = true → rtxAdjacentOk ys = true →
      rtxAdjacentOk (xs ++ ys) = true := by
  intro xs
  induction xs with
  | nil => intro ys _ hy; simpa
  | cons x xs ih =>
    intro ys hx hy
    simp only [rtxAdjacentOk] at hx
    simp only [List.cons_append, rtxAdjacentOk]
    split at hx
    · rename_i hguard
      cases xs with
      | nil => simp at hx
      | cons r xs' =>
        simp only [Bool.and_eq_true] at hx
        simp only [hguard, if_true, List.cons_append, Bool.and_eq_true]
        exact ⟨hx.1, ih ys hx.2 hy⟩
    · rename_i hguard
      simp only [if_neg hguard]
      exact ih ys hx hy

theorem rtxAdjacentOk_single_nonvideo (codec : RtpCodecCapability)
    (h : ¬ codec.kind = "video") : rtxAdjacentOk [codec] = true := by
  simp [rtxAdjacentOk, h]

theorem rtxAdjacentOk_pair (codec : RtpCodecCapability) (pt : Int)
    (hkind : codec.kind = "video") :
    rtxAdjacentOk [codec,
      { kind := codec.kind, mimeType := codec.kind ++ "/rtx", preferredPayloadType := pt,
        clockRate := codec.clockRate, rtcpFeedback := [],
        parameters := some { apt := codec.preferredPayloadType } }] = true := by
  have hmime : isRtxMime "video/rtx" = true := by decide
  cases hrtx : isRtxMime codec.mimeType <;>
    simp [rtxAdjacentOk, isRtxSiblingOf, hmime, hrtx, hkind]

theorem generateRouterLoop_rtxAdjacent (neg : H264Negotiate)
    (supportedCodecs : List RtpCodecCapability) :
    ∀ (mediaCodecs : List RtpCodecCapability) (idx : Nat) (caps caps' : RtpCapabilities),
      generateRouterLoop neg supportedCodecs mediaCodecs idx caps = (caps', none) →
      rtxAdjacentOk caps.codecs = true → rtxAdjacentOk caps'.codecs = true := by
  intro mediaCodecs
  induction mediaCodecs with
  | nil =>
    intro idx caps caps' h hacc
    simp only [generateRouterLoop, Prod.mk.injEq] at h
    rw [← h.1]; exact hacc
  | cons mc rest ih =>
    intro idx caps caps' h hacc
    simp only [generateRouterLoop] at h
    split at h
    · simp [Prod.mk.injEq] at h
    · split at h
      · simp [Prod.mk.injEq] at h
      · split at h
        · simp [Prod.mk.injEq] at h
        · split at h
          · rename_i hvideo
            split at h
            · simp [Prod.mk.injEq] at h
            · apply ih _ _ _ h
              rw [List.append_assoc]
              exact rtxAdjacentOk_append _ _ hacc (rtxAdjacentOk_pair _ _ hvideo)
          · rename_i hvideo
            apply ih _ _ _ h
            exact rtxAdjacentOk_append _ _ hacc (rtxAdjacentOk_single_nonvideo _ hvideo)

theorem collectCapCodecs_none_of_invalid :
    ∀ (capCodecs : List RtpCodecCapability) (c : RtpCodecCapability),
      c ∈ capCodecs → (c.mimeType.length = 0 ∨ c.clockRate = 0) →
      collectCapCodecs capCodecs = none := by
  intro capCodecs
  induction capCodecs with
  | nil => intro c hc _; simp at hc
  | cons x rest ih =>
    intro c hc hinv
    rcases List.mem_cons.mp hc with rfl | hmem
    · have hx : checkCodecCapability c = .error (.typeError "invalid RTCRtpCodecCapability") := by
        unfold checkCodecCapability
        rw [if_pos hinv]
      simp [collectCapCodecs, hx]
    · simp only [collectCapCodecs]
      cases hx : checkCodecCapability x with
      | error e => rfl
      | ok x' => rw [ih c hmem hinv]

theorem consumableCodecsLoop_sub (caps : RtpCapabilities) (rtpMapping : RtpMappingParameters) :
    ∀ (codecs acc res : List RtpCodecCapability) (e : Option OrtcError),
      consumableCodecsLoop caps rtpMapping codecs acc = (res, e) →
      ∀ x ∈ acc, x ∈ res := by
  intro codecs
  induction codecs with
  | nil =>
    intro acc res e h x hx
    simp only [consumableCodecsLoop, Prod.mk.injEq] at h
    rw [← h.1]; exact hx
  | cons c rest ih =>
    intro acc res e h x hx
    simp only [consumableCodecsLoop] at h
    split at h
    · simp only [Prod.mk.injEq] at h
      rw [← h.1]; exact hx
    · split at h
      · exact ih _ _ _ h x hx
      · split at h
        · simp only [Prod.mk.injEq] at h
          rw [← h.1]; exact List.mem_append_left _ hx
        · exact ih _ _ _ h x (List.mem_append_left _ hx)
        · exact ih _ _ _ h x (List.mem_append_left _ (List.mem_append_left _ hx))

theorem consumableCodecsLoop_mem (caps : RtpCapabilities) (rtpMapping : RtpMappingParameters) :
    ∀ (codecs acc res : List RtpCodecCapability),
      consumableCodecsLoop caps rtpMapping codecs acc = (res, none) →
      ∀ codec ∈ codecs, isRtxMime codec.mimeType = false →
        consumableCodecFor caps rtpMapping codec ∈ res := by
  intro codecs
  induction codecs with
  | nil => intro acc res _ codec hc; simp at hc
  | cons c rest ih =>
    intro acc res h codec hc hrtx
    simp only [consumableCodecsLoop] at h
    rcases List.mem_cons.mp hc with rfl | hmem
    · split at h
      · simp [Prod.mk.injEq] at h
      · split at h
        · rename_i hr; rw [hrtx] at hr; simp at hr
        · split at h
          · simp [Prod.mk.injEq] at h
          · exact consumableCodecsLoop_sub caps rtpMapping rest _ _ _ h _ (by simp)
          · exact consumableCodecsLoop_sub caps rtpMapping rest _ _ _ h _ (by simp)
    · split at h
      · simp [Prod.mk.injEq] at h
      · split at h
        · exact ih _ _ h codec hmem hrtx
        · split at h
          · simp [Prod.mk.injEq] at h
          · exact ih _ _ h codec hmem hrtx
          · exact ih _ _ h codec hmem hrtx

theorem eraseRtcpFeedback_set (c : RtpCodecCapability) (fb : List RtcpFeedback) :
    eraseRtcpFeedback { c with rtcpFeedback := fb } = eraseRtcpFeedback c := rfl

theorem consumerCodecsLoop_spec (neg : H264Negotiate) (capCodecs : List RtpCodecCapability) :
    ∀ (consumableCodecs acc : List RtpCodecCapability) (b : Bool),
      ∃ s b', consumerCodecsLoop neg capCodecs consumableCodecs acc b = (acc ++ s, b') ∧
        (s.map eraseRtcpFeedback).Sublist (consumableCodecs.map eraseRtcpFeedback) ∧
        ∀ c' ∈ s, ∃ c ∈ consumableCodecs,
          (selectMatchedCodecs neg c capCodecs codecMatchStrict).2.2 = true ∧
          c' = { c with rtcpFeedback :=
            (selectMatchedCodecs neg c capCodecs codecMatchStrict).1.rtcpFeedback } := by
  intro consumableCodecs
  induction consumableCodecs with
  | nil =>
    intro acc b
    exact ⟨[], b, by simp [consumerCodecsLoop], by simp, by simp⟩
  | cons codec rest ih =>
    intro acc b
    simp only [consumerCodecsLoop]
    split
    · obtain ⟨s, b', heq, hsub, hmem⟩ := ih acc b
      refine ⟨s, b', heq, ?_, ?_⟩
      · simp only [List.map_cons]
        exact hsub.trans (List.sublist_cons_self _ _)
      · intro c' hc'
        obtain ⟨c, hcmem, hm, he⟩ := hmem c' hc'
        exact ⟨c, List.mem_cons_of_mem _ hcmem, hm, he⟩
    · rename_i hmatch
      obtain ⟨s, b', heq, hsub, hmem⟩ :=
        ih (acc ++ [{ codec with rtcpFeedback :=
          (selectMatchedCodecs neg codec capCodecs codecMatchStrict).1.rtcpFeedback }]) _
      refine ⟨{ codec with rtcpFeedback :=
          (selectMatchedCodecs neg codec capCodecs codecMatchStrict).1.rtcpFeedback } :: s,
        b', ?_, ?_, ?_⟩
      · rw [heq, List.append_assoc]
        rfl
      · simp only [List.map_cons, eraseRtcpFeedback_set]
        exact List.Sublist.cons₂ _ hsub
      · intro c' hc'
        rcases List.mem_cons.mp hc' with rfl | hc'mem
        · exact ⟨codec, List.mem_cons_self _ _,
            Bool.not_eq_false _ ▸ (by simpa using hmatch), rfl⟩
        · obtain ⟨c, hcmem, hm, he⟩ := hmem c' hc'mem
          exact ⟨c, List.mem_cons_of_mem _ hcmem, hm, he⟩

theorem pipeRtcpFeedbackLoop_eq_filter :
    ∀ (fbs : List RtcpFeedback),
      pipeRtcpFeedbackLoop fbs = fbs.filter pipeAllowedFb := by
  intro fbs
  induction fbs with
  | nil => rfl
  | cons fb rest ih =>
    simp only [pipeRtcpFeedbackLoop]
    split
    · rename_i hcond
      have hb : pipeAllowedFb fb = true := by
        unfold pipeAllowedFb
        rcases hcond with ⟨h1, h2⟩ | ⟨h1, h2⟩ <;> simp [h1, h2]
      simp [List.filter_cons, hb, ih]
    · rename_i hcond
      have hb : pipeAllowedFb fb = false := by
        by_contra hbne
        rw [Bool.not_eq_false] at hbne
        apply hcond
        simp only [pipeAllowedFb, Bool.or_eq_true, Bool.and_eq_true, beq_iff_eq] at hbne
        exact hbne
      simp [List.filter_cons, hb, ih]

theorem pipeCodecsLoop_eq :
    ∀ (codecs : List RtpCodecCapability),
      pipeCodecsLoop codecs =
        (codecs.filter (fun c => !(isRtxMime c.mimeType))).map
          (fun c => { c with rtcpFeedback := c.rtcpFeedback.filter pipeAllowedFb }) := by
  intro codecs
  induction codecs with
  | nil => rfl
  | cons c rest ih =>
    simp only [pipeCodecsLoop]
    split
    · rename_i hrtx
      simp [List.filter_cons, hrtx, ih]
    · rename_i hrtx
      rw [Bool.not_eq_true] at hrtx
      simp [List.filter_cons, hrtx, ih, pipeRtcpFeedbackLoop_eq_filter]

theorem pipeHeaderExtensionsLoop_eq :
    ∀ (exts : List RtpHeaderExtension),
      pipeHeaderExtensionsLoop exts =
        exts.filter (fun ext =>
          !(ext.uri == "http://www.webrtc.org/experiments/rtp-hdrext/abs-send-time")) := by
  intro exts
  induction exts with
  | nil => rfl
  | cons ext rest ih =>
    simp only [pipeHeaderExtensionsLoop]
    split
    · rename_i hne
      simp [List.filter_cons, hne, ih]
    · rename_i hne
      rw [not_ne_iff] at hne
      simp [List.filter_cons, hne, ih]

theorem pipeEncodingsLoop_eq :
    ∀ (encodings : List RtpEncoding),
      pipeEncodingsLoop encodings = encodings.map (fun e => { e with rtx := none }) := by
  intro encodings
  induction encodings with
  | nil => rfl
  | cons e rest ih => simp [pipeEncodingsLoop, ih]

/-!  Claim theorems. -/

/-- C1: the claim says that a producer codec with no Strict+Modify match
makes `GetProducerRtpParametersMapping` return an unsupported-codec error
with no partial mapping output.  The code violates this (a missing `return`
after the error assignment, ortc.go lines 151-158): (first conjunct group)
with a single unmatched codec the error is returned TOGETHER with a
non-empty codec mapping (a bogus entry mapping payload type 111 to 0) and a
non-empty encoding mapping; (second group) when the unmatched codec is
followed by a matched one, the error is erased entirely by the next
iteration's `err = checkCodecParameters(codec)` and the call reports
success while still recording the bogus entry 9 → 0. -/
theorem c1_producer_mapping_error_not_terminal :
    ((GetProducerRtpParametersMapping sampleNeg sampleRng soloProducerParams {}).2 =
        some (.unsupportedError "unsupported codec [mimeType:audio/opus, payloadType:0]") ∧
      (GetProducerRtpParametersMapping sampleNeg sampleRng soloProducerParams {}).1.codecs =
        [{ payloadType := 111, mappedPayloadType := 0 }] ∧
      (GetProducerRtpParametersMapping sampleNeg sampleRng soloProducerParams {}).1.encodings =
        [{ rid := "", ssrc := 1111, mappedSsrc := 3000 }]) ∧
    ((GetProducerRtpParametersMapping sampleNeg sampleRng mixedProducerParams audioCaps).2 =
        none ∧
      (GetProducerRtpParametersMapping sampleNeg sampleRng mixedProducerParams audioCaps).1.codecs =
        [{ payloadType := 9, mappedPayloadType := 0 },
         { payloadType := 111, mappedPayloadType := 100 }]) := by
  decide

/-- C2 counterexample: the claim says the dynamic payload-type pool holds 74
numbers; `DYNAMIC_PAYLOAD_TYPES` holds 88 (the stated ranges 100-127, 96-99,
77-95, 35-71 themselves sum to 88). -/
theorem c2_pool_has_88_entries_not_74 :
    DYNAMIC_PAYLOAD_TYPES.length = 88 ∧ ¬ DYNAMIC_PAYLOAD_TYPES.length = 74 := by
  decide

/-- C2 (amended: the pool holds 88 numbers, not 74): the pool is exactly the
ranges 100-127, 96-99, 77-95, 35-71 in that preference order; configuring
more codecs needing dynamic numbers than the pool holds fails with the
allocation error (concretely: 45 video codecs need 90 > 88 numbers); and a
successful call never truncates: it returns at least one output codec per
configured codec. -/
theorem c2_amended_pool_order_and_exhaustion :
    DYNAMIC_PAYLOAD_TYPES =
      ((List.range' 100 28) ++ (List.range' 96 4) ++ (List.range' 77 19) ++
        (List.range' 35 37)).map (fun n => (n : Int)) ∧
    (GenerateRouterRtpCapabilities sampleNeg supTableVideo
        (List.replicate 45 cfgVP8)).2 =
      some (.allocError "cannot allocate more dynamic codec payload types") ∧
    ∀ (neg : H264Negotiate) (supported : RtpCapabilities)
      (mediaCodecs : List RtpCodecCapability) (caps : RtpCapabilities),
      GenerateRouterRtpCapabilities neg supported mediaCodecs = (caps, none) →
      mediaCodecs.length ≤ caps.codecs.length := by
  refine ⟨by decide, by decide, ?_⟩
  intro neg supported mediaCodecs caps h
  unfold GenerateRouterRtpCapabilities at h
  split at h
  · simp [Prod.mk.injEq] at h
  · have := generateRouterLoop_length neg supported.codecs mediaCodecs 0 _ caps h
    simpa using this

/-- C2 witness: the no-truncation conjunct applied to a successful concrete
build of one configured codec. -/
theorem c2_amended_pool_order_and_exhaustion_witness :
    1 ≤ (GenerateRouterRtpCapabilities sampleNeg supTableAudio [cfgOpus]).1.codecs.length :=
  c2_amended_pool_order_and_exhaustion.2.2 sampleNeg supTableAudio [cfgOpus]
    (GenerateRouterRtpCapabilities sampleNeg supTableAudio [cfgOpus]).1 (by decide)

/-- C3 counterexample: the claim quantifies over every output codec of kind
video, but the synthesized RTX sibling itself has kind "video" and is not
followed by a further sibling: a successful build from one video codec ends
in a kind-"video" RTX codec, so the property as stated is false. -/
theorem c3_rtx_sibling_itself_video_kind :
    (GenerateRouterRtpCapabilities sampleNeg supTableVideo [cfgVP8]).2 = none ∧
    (GenerateRouterRtpCapabilities sampleNeg supTableVideo [cfgVP8]).1.codecs.map
      (fun c => (c.kind, c.mimeType)) =
      [("video", "video/VP8"), ("video", "video/rtx")] ∧
    videoKindAdjacentOk
      (GenerateRouterRtpCapabilities sampleNeg supTableVideo [cfgVP8]).1.codecs = false := by
  decide

/-- C3 (amended: restricted to non-RTX codecs of kind video): in every
successful `GenerateRouterRtpCapabilities` output, every non-RTX codec of
kind video is immediately followed by its synthesized RTX sibling —
mime type `<kind>/rtx`, equal clockRate, empty rtcpFeedback, and `apt`
equal to the video codec's assigned payload type (`rtxAdjacentOk`). -/
theorem c3_amended_rtx_adjacency :
    ∀ (neg : H264Negotiate) (supported : RtpCapabilities)
      (mediaCodecs : List RtpCodecCapability) (caps : RtpCapabilities),
      GenerateRouterRtpCapabilities neg supported mediaCodecs = (caps, none) →
      rtxAdjacentOk caps.codecs = true := by
  intro neg supported mediaCodecs caps h
  unfold GenerateRouterRtpCapabilities at h
  split at h
  · simp [Prod.mk.injEq] at h
  · exact generateRouterLoop_rtxAdjacent neg supported.codecs mediaCodecs 0 _ caps h rfl

/-- C3 witness: the adjacency invariant on a concrete successful build with
one audio and one video codec. -/
theorem c3_amended_rtx_adjacency_witness :
    rtxAdjacentOk
      (GenerateRouterRtpCapabilities sampleNeg supTableAV [cfgOpus, cfgVP8]).1.codecs =
      true :=
  c3_amended_rtx_adjacency sampleNeg supTableAV [cfgOpus, cfgVP8]
    (GenerateRouterRtpCapabilities sampleNeg supTableAV [cfgOpus, cfgVP8]).1 (by decide)

/-- C4: in every match mode, `matchedCodecs` reports a match only if the
mime types are equal case-insensitively, the clock rates are equal, two
nonzero audio channel counts are equal, and for mime type video/h264 the
packetizationMode values (an absent parameter block counting as the zero
struct, i.e. packetizationMode 0) are equal; moreover for audio mime types
the zero/absent channel count is a genuine wildcard: the match outcome is
exactly equivalent to mime-type equality, clock-rate equality and the
nonzero-channels rule. -/
theorem c4_matcher_match_conditions (neg : H264Negotiate) (mode : Nat)
    (a b : RtpCodecCapability) :
    ((matchedCodecs neg a b mode).1 = true →
      toLowerGo a.mimeType = toLowerGo b.mimeType ∧
      a.clockRate = b.clockRate ∧
      (beginsWithGo (toLowerGo a.mimeType) "audio/" = true →
        0 < a.channels → 0 < b.channels → a.channels = b.channels) ∧
      (toLowerGo a.mimeType = "video/h264" →
        (a.parameters.getD {}).rtpH264Parameter.packetizationMode =
          (b.parameters.getD {}).rtpH264Parameter.packetizationMode)) ∧
    (beginsWithGo (toLowerGo a.mimeType) "audio/" = true →
      ((matchedCodecs neg a b mode).1 = true ↔
        toLowerGo a.mimeType = toLowerGo b.mimeType ∧ a.clockRate = b.clockRate ∧
          (0 < a.channels → 0 < b.channels → a.channels = b.channels))) := by
  have main : (matchedCodecs neg a b mode).1 = true →
      toLowerGo a.mimeType = toLowerGo b.mimeType ∧
      a.clockRate = b.clockRate ∧
      (beginsWithGo (toLowerGo a.mimeType) "audio/" = true →
        0 < a.channels → 0 < b.channels → a.channels = b.channels) ∧
      (toLowerGo a.mimeType = "video/h264" →
        (a.parameters.getD {}).rtpH264Parameter.packetizationMode =
          (b.parameters.getD {}).rtpH264Parameter.packetizationMode) := by
    intro h
    simp only [matchedCodecs] at h
    split at h
    · simp at h
    · split at h
      · simp at h
      · split at h
        · simp at h
        · rename_i hmime hclock hch
          refine ⟨not_ne_iff.mp hmime, not_ne_iff.mp hclock, ?_, ?_⟩
          · intro haudio hac hbc
            by_contra hne
            exact hch ⟨haudio, hac, hbc, hne⟩
          · intro hh264
            split at h
            · split at h
              · simp at h
              · rename_i hpm
                exact not_ne_iff.mp hpm
            · rename_i hh264'
              exact absurd hh264 hh264'
  refine ⟨main, ?_⟩
  intro haudio
  constructor
  · intro h
    obtain ⟨h1, h2, h3, -⟩ := main h
    exact ⟨h1, h2, h3 haudio⟩
  · rintro ⟨h1, h2, h3⟩
    simp only [matchedCodecs]
    rw [if_neg (not_ne_iff.mpr h1)]
    rw [if_neg (not_ne_iff.mpr h2)]
    rw [if_neg (by rintro ⟨-, hac, hbc, hne⟩; exact hne (h3 hac hbc))]
    rw [if_neg (by intro hh; rw [hh] at haudio; exact absurd haudio (by decide))]

/-- C4 witness: the necessary conditions read off from a concrete successful
Strict+Modify match of two opus codecs. -/
theorem c4_matcher_match_conditions_witness :
    toLowerGo opusProducerCodec.mimeType = toLowerGo supOpus.mimeType ∧
    opusProducerCodec.clockRate = supOpus.clockRate ∧
    (beginsWithGo (toLowerGo opusProducerCodec.mimeType) "audio/" = true →
      0 < opusProducerCodec.channels → 0 < supOpus.channels →
      opusProducerCodec.channels = supOpus.channels) ∧
    (toLowerGo opusProducerCodec.mimeType = "video/h264" →
      (opusProducerCodec.parameters.getD {}).rtpH264Parameter.packetizationMode =
        (supOpus.parameters.getD {}).rtpH264Parameter.packetizationMode) :=
  (c4_matcher_match_conditions sampleNeg codecMatchStrictAndModify
    opusProducerCodec supOpus).1 (by decide)

/-- C5: `CanConsume` is a total boolean function (it returns a `Bool` for
every input and raises nothing, by construction of the model), and it
returns false (a) whenever some capability codec is invalid (empty mime
type or zero clock rate), (b) whenever no consumable codec has a
Strict-mode match among the validated capability codecs, and (c) whenever
the first remaining match is an RTX codec (mime type ending in "/rtx",
case-sensitively, as in the code). -/
theorem c5_canConsume_false_conditions (neg : H264Negotiate)
    (consumableParams : RtpParameters) (caps : RtpCapabilities) :
    ((∃ c ∈ caps.codecs, c.mimeType.length = 0 ∨ c.clockRate = 0) →
      CanConsume neg consumableParams caps = false) ∧
    (∀ capCodecs, collectCapCodecs caps.codecs = some capCodecs →
      (canConsumeMatching neg consumableParams.codecs capCodecs = [] →
        CanConsume neg consumableParams caps = false) ∧
      (∀ m ms, canConsumeMatching neg consumableParams.codecs capCodecs = m :: ms →
        endsWithGo m.mimeType "/rtx" = true →
        CanConsume neg consumableParams caps = false)) := by
  refine ⟨?_, ?_⟩
  · rintro ⟨c, hc, hinv⟩
    unfold CanConsume
    rw [collectCapCodecs_none_of_invalid caps.codecs c hc hinv]
  · intro capCodecs hsome
    unfold CanConsume
    rw [hsome]
    constructor
    · intro hemp
      simp [hemp]
    · intro m ms hm hrtx
      simp [hm, hrtx]

/-- C5 witness: the claim's own scenario — the only Strict match for the
consumable set is an RTX codec, and `CanConsume` returns false. -/
theorem c5_canConsume_false_conditions_witness :
    CanConsume sampleNeg rtxOnlyConsumableParams { codecs := [rtxOnlyCapCodec] } = false :=
  ((c5_canConsume_false_conditions sampleNeg rtxOnlyConsumableParams
      { codecs := [rtxOnlyCapCodec] }).2
    [rtxOnlyCapCodec] (by decide)).2 rtxOnlyCapCodec [] (by decide) (by decide)

/-- C6: on every successful `GetConsumableRtpParameters` call, the output
RTCP configuration reuses the producer cname with reducedSize = true and
mux = true regardless of the producer's RTCP flags; and for every non-RTX
producer codec, the emitted consumable codec (`consumableCodecFor`) is in
the output and takes mimeType, clockRate, channels and rtcpFeedback from
the capability codec whose preferred payload type equals the mapped payload
type (`findCapCodecByPt` at `consumableCodecPtOf`), takes that codec's
preferred payload type as its payload type, and keeps the producer codec's
own parameters. -/
theorem c6_consumable_codec_sources (kind : String) (params : RtpParameters)
    (caps : RtpCapabilities) (rtpMapping : RtpMappingParameters) (out : RtpParameters) :
    GetConsumableRtpParameters kind params caps rtpMapping = (out, none) →
    out.rtcp = { cname := params.rtcp.cname, reducedSize := true, mux := some true } ∧
    ∀ codec ∈ params.codecs, isRtxMime codec.mimeType = false →
      consumableCodecFor caps rtpMapping codec ∈ out.codecs ∧
      (consumableCodecFor caps rtpMapping codec).mimeType =
        (findCapCodecByPt caps.codecs
          (consumableCodecPtOf rtpMapping.codecs codec.payloadType)).mimeType ∧
      (consumableCodecFor caps rtpMapping codec).clockRate =
        (findCapCodecByPt caps.codecs
          (consumableCodecPtOf rtpMapping.codecs codec.payloadType)).clockRate ∧
      (consumableCodecFor caps rtpMapping codec).channels =
        (findCapCodecByPt caps.codecs
          (consumableCodecPtOf rtpMapping.codecs codec.payloadType)).channels ∧
      (consumableCodecFor caps rtpMapping codec).rtcpFeedback =
        (findCapCodecByPt caps.codecs
          (consumableCodecPtOf rtpMapping.codecs codec.payloadType)).rtcpFeedback ∧
      (consumableCodecFor caps rtpMapping codec).payloadType =
        (findCapCodecByPt caps.codecs
          (consumableCodecPtOf rtpMapping.codecs codec.payloadType)).preferredPayloadType ∧
      (consumableCodecFor caps rtpMapping codec).parameters = codec.parameters := by
  intro h
  unfold GetConsumableRtpParameters at h
  split at h
  · simp [Prod.mk.injEq] at h
  · rename_i codecsAcc hloop
    split at h
    · simp [Prod.mk.injEq] at h
    · simp only [Prod.mk.injEq] at h
      obtain ⟨rfl, -⟩ := h
      refine ⟨rfl, ?_⟩
      intro codec hc hrtx
      exact ⟨consumableCodecsLoop_mem caps rtpMapping params.codecs [] codecsAcc hloop
        codec hc hrtx, rfl, rfl, rfl, rfl, rfl, rfl⟩

/-- C6 witness: the emitted consumable opus codec is in the output of a
concrete successful derivation. -/
theorem c6_consumable_codec_sources_witness :
    consumableCodecFor audioCaps soloMapping opusProducerCodec ∈
      (GetConsumableRtpParameters "audio" soloProducerParams audioCaps soloMapping).1.codecs :=
  ((c6_consumable_codec_sources "audio" soloProducerParams audioCaps soloMapping
      (GetConsumableRtpParameters "audio" soloProducerParams audioCaps soloMapping).1
      (by decide)).2 opusProducerCodec (by decide) (by decide)).1

/-- C7: the round-trip subset property fails on the code.  Concretely: the
router capabilities build succeeds (payload types \x7b100\x7d), the producer
mapping call reports success (err = nil) although its first codec (PCMU,
payload type 9) is unmatched — the missing return of ortc.go line 156
records the bogus entry 9 → 0 and the error is then erased — and the
consumable derivation succeeds, emitting a codec with payload type 0, which
is NOT among the router capability payload types. -/
theorem c7_round_trip_subset_violated :
    (GenerateRouterRtpCapabilities sampleNeg supTableAudio [cfgOpus]).2 = none ∧
    (GetProducerRtpParametersMapping sampleNeg sampleRng mixedProducerParams audioCaps).2 =
      none ∧
    (GetConsumableRtpParameters "audio" mixedProducerParams audioCaps mixedMapping).2 =
      none ∧
    mixedConsumable.codecs.map (fun c => c.payloadType) = [0, 100] ∧
    audioCaps.codecs.map (fun c => c.preferredPayloadType) = [100] ∧
    ((mixedConsumable.codecs.map (fun c => c.payloadType)).all
      (fun pt => (audioCaps.codecs.map (fun c => c.preferredPayloadType)).contains pt))
      = false := by
  decide

/-- C8: every successful `GetConsumerRtpParameters` output codec list is an
order-preserving, feedback-relabelled sublist of the consumable input: with
feedback erased it is a sublist of the input, and every output codec equals
some consumable codec with its rtcpFeedback replaced by the feedback of the
first Strict-matching consumer capability codec; and every error the
function returns is either a capability-validation error or the
"no compatible media codecs" error — dropping an unmatched consumable codec
never produces an error. -/
theorem c8_consumer_codec_conservation (neg : H264Negotiate) (rng : Rng)
    (consumableParams : RtpParameters) (caps : RtpCapabilities)
    (out : RtpParameters) (err : Option OrtcError) :
    GetConsumerRtpParameters neg rng consumableParams caps = (out, err) →
    (err = none →
      (out.codecs.map eraseRtcpFeedback).Sublist
        (consumableParams.codecs.map eraseRtcpFeedback) ∧
      ∀ c' ∈ out.codecs, ∃ c ∈ consumableParams.codecs,
        (selectMatchedCodecs neg c caps.codecs codecMatchStrict).2.2 = true ∧
        c' = { c with rtcpFeedback :=
          (selectMatchedCodecs neg c caps.codecs codecMatchStrict).1.rtcpFeedback }) ∧
    (∀ e, err = some e →
      firstCapCodecError caps.codecs = some e ∨
      e = .unsupportedError "no compatible media codecs") := by
  intro h
  unfold GetConsumerRtpParameters at h
  split at h
  · rename_i e he
    simp only [Prod.mk.injEq] at h
    obtain ⟨rfl, rfl⟩ := h
    constructor
    · intro hne; simp at hne
    · intro e' he'
      obtain rfl := Option.some.inj he'
      exact Or.inl he
  · obtain ⟨s, b', heq, hsub, hmem⟩ :=
      consumerCodecsLoop_spec neg caps.codecs consumableParams.codecs [] false
    simp only [List.nil_append] at heq
    rw [heq] at h
    dsimp only at h
    split at h
    · simp only [Prod.mk.injEq] at h
      obtain ⟨rfl, rfl⟩ := h
      constructor
      · intro hne; simp at hne
      · intro e' he'
        obtain rfl := Option.some.inj he'
        exact Or.inr rfl
    · simp only [Prod.mk.injEq] at h
      obtain ⟨rfl, rfl⟩ := h
      constructor
      · intro _
        exact ⟨hsub, hmem⟩
      · intro e' he'; simp at he'

/-- C8 witness: the sublist conservation on a concrete successful reduction
in which one consumable codec is retained (with relabelled feedback) and
one is silently dropped. -/
theorem c8_consumer_codec_conservation_witness :
    (((GetConsumerRtpParameters sampleNeg sampleRng twoCodecConsumableParams
        consumerCaps).1.codecs.map eraseRtcpFeedback).Sublist
      (twoCodecConsumableParams.codecs.map eraseRtcpFeedback)) :=
  ((c8_consumer_codec_conservation sampleNeg sampleRng twoCodecConsumableParams
      consumerCaps
      (GetConsumerRtpParameters sampleNeg sampleRng twoCodecConsumableParams consumerCaps).1
      none (by decide)).1 rfl).1

/-- C9: `GetPipeConsumerRtpParameters` drops every RTX codec and keeps, for
each retained codec, exactly the feedback entries (nack, pli) and
(ccm, fir); it drops exactly the abs-send-time header extension; it maps
every consumable encoding to itself with only the rtx field cleared (ssrc,
rid and codecPayloadType preserved); it passes the RTCP configuration
through; and on the feedback list
[(nack,""), (nack,"pli"), (ccm,"fir"), (goog-remb,"")] exactly (nack,"pli")
and (ccm,"fir") remain. -/
theorem c9_pipe_consumer_reduction (consumableParams : RtpParameters) :
    (GetPipeConsumerRtpParameters consumableParams).codecs =
      (consumableParams.codecs.filter (fun c => !(isRtxMime c.mimeType))).map
        (fun c => { c with rtcpFeedback := c.rtcpFeedback.filter pipeAllowedFb }) ∧
    (GetPipeConsumerRtpParameters consumableParams).headerExtensions =
      consumableParams.headerExtensions.filter (fun ext =>
        !(ext.uri == "http://www.webrtc.org/experiments/rtp-hdrext/abs-send-time")) ∧
    (GetPipeConsumerRtpParameters consumableParams).encodings =
      consumableParams.encodings.map (fun e => { e with rtx := none }) ∧
    (GetPipeConsumerRtpParameters consumableParams).rtcp = consumableParams.rtcp ∧
    pipeRtcpFeedbackLoop
      [{ type := "nack" }, { type := "nack", parameter := "pli" },
       { type := "ccm", parameter := "fir" }, { type := "goog-remb" }] =
      [{ type := "nack", parameter := "pli" }, { type := "ccm", parameter := "fir" }] :=
  ⟨pipeCodecsLoop_eq consumableParams.codecs,
   pipeHeaderExtensionsLoop_eq consumableParams.headerExtensions,
   pipeEncodingsLoop_eq consumableParams.encodings,
   rfl,
   by decide⟩

/-- C10: for the empty configured-codec list, `GenerateRouterRtpCapabilities`
returns the type error "mediaCodecs cannot be empty" together with the empty
capability set, for every supported table. -/
theorem c10_empty_media_codecs_rejected (neg : H264Negotiate)
    (supported : RtpCapabilities) :
    GenerateRouterRtpCapabilities neg supported [] =
      ({ codecs := [], headerExtensions := [], fecMechanisms := [] },
       some (.typeError "mediaCodecs cannot be empty")) := rfl
